import Mathlib

set_option maxRecDepth 8192

/-!
Verification of the prompt-construction and response-segmentation logic of
`ai_mental_wellbeing_agent_simple.py`.

The script reads a conversation transcript (a list of dict-like turns),
filters the turns whose `role` equals `"assistant"`, concatenates their
`content` each followed by `"\n\n"`, splits the result on `"\n\n"`, and
stores the first three fragments in the session-state output record.
It also renders an intake form into a task string with a Python f-string,
and wraps the whole pipeline in a single `try/except` block guarded by a
credential-presence check.
-/

/-- A conversation turn as the script handles it: a dict from which `role`
and `content` are read with `.get`, so either key may be absent
(`message.get('role')`, `message.get('content', '')`). -/
structure Turn where
  role : Option String
  content : Option String
deriving DecidableEq, Repr

/-- The `st.session_state.output` record: three string buckets. -/
structure SessionOutput where
  assessment : String
  action : String
  followup : String
deriving DecidableEq, Repr

/-- Lines 174-177: `full_response = ""`, then for each message in the
conversation, if `message.get('role') == 'assistant'` then
`full_response += message.get('content', '') + "\n\n"`. -/
def fullResponse (conversation : List Turn) : String :=
  conversation.foldl
    (fun acc m =>
      if m.role == some "assistant" then acc ++ (m.content.getD "" ++ "\n\n") else acc)
    ""

/-- Helper for `splitNN`: prepend a character to the first fragment of a
fragment list (used when the scanned character is not part of a separator). -/
def consHead (c : Char) : List (List Char) → List (List Char)
  | [] => [[c]]
  | x :: xs => (c :: x) :: xs

/-- Python `s.split('\n\n')` (line 180) on the character list of `s`:
leftmost-first, non-overlapping occurrences of the two-newline separator
delimit the fragments; splitting the empty string gives one empty fragment. -/
def splitNN : List Char → List (List Char)
  | [] => [[]]
  | [c] => [[c]]
  | a :: b :: rest =>
    if a = '\n' ∧ b = '\n' then [] :: splitNN rest
    else consHead a (splitNN (b :: rest))

/-- Line 180: `sections = full_response.split('\n\n')`. -/
def sections (conversation : List Turn) : List String :=
  (splitNN (fullResponse conversation).data).map (fun cs => String.mk cs)

/-- Lines 183-187: the output record.  `sections[i] if len(sections) > i
else d` is exactly `List.getD` with default `d`. -/
def segmentResponse (conversation : List Turn) : SessionOutput :=
  { assessment := (sections conversation).getD 0 (fullResponse conversation)
  , action := (sections conversation).getD 1 ""
  , followup := (sections conversation).getD 2 "" }

/-- The six collected form fields (lines 41-66): free-text mood, sleep hours
as the stringified slider value, stress level, support-system selection,
free-text recent changes, symptom selection. -/
structure IntakeForm where
  mental_state : String
  sleep_pattern : String
  stress_level : Nat
  support_system : List String
  recent_changes : String
  current_symptoms : List String
deriving DecidableEq, Repr

/-- Rendering of a list-valued field (lines 81 and 83):
`', '.join(xs) if xs else 'None reported'`. -/
def renderSelection (xs : List String) : String :=
  if xs.isEmpty then "None reported" else String.intercalate ", " xs

/-- Literal chunk of the f-string before the mood interpolation. -/
def taskPart1 : String :=
  "\n                Create a comprehensive mental health support plan based on:\n                \n                Emotional State: "

/-- Literal chunk between the mood and sleep interpolations. -/
def taskPart2 : String := "\n                Sleep: "

/-- Literal chunk between the sleep and stress interpolations. -/
def taskPart3 : String := " hours per night\n                Stress Level: "

/-- Literal chunk between the stress interpolation and the support label. -/
def taskPart4a : String := "/10\n                "

/-- The support-system field label. -/
def taskPart4b : String := "Support System: "

/-- Literal chunk between the support field and the recent-changes field. -/
def taskPart5 : String := "\n                Recent Changes: "

/-- Literal chunk between the recent-changes field and the symptoms label. -/
def taskPart6a : String := "\n                "

/-- The symptoms field label. -/
def taskPart6b : String := "Current Symptoms: "

/-- Literal trailing chunk of the f-string. -/
def taskPart7 : String :=
  "\n                \n                Please provide a structured response with three sections:\n                1. Assessment: Analyze the emotional state and psychological needs\n                2. Action Plan: Provide immediate coping strategies and resources\n                3. Follow-up Strategy: Design long-term support and prevention plans\n                "

/-- Lines 75-89: the f-string building the task description, character for
character (16-space indentation and the trailing spaces of the blank lines
included). -/
def task (f : IntakeForm) : String :=
  taskPart1 ++ f.mental_state ++ taskPart2 ++ f.sleep_pattern ++ taskPart3 ++
    toString f.stress_level ++ taskPart4a ++ taskPart4b ++
    renderSelection f.support_system ++ taskPart5 ++ f.recent_changes ++
    taskPart6a ++ taskPart6b ++ renderSelection f.current_symptoms ++ taskPart7

/-- What the button handler reports back to the page. -/
structure SubmitResult where
  output : SessionOutput
  errors : List String
  success : Bool
  spinner : Bool
  invoked : Bool
deriving DecidableEq, Repr

/-- Lines 68-203: the click handler.  `if not api_key` shows the
credential-missing error and does nothing else (no spinner, pipeline not
invoked); otherwise the spinner is shown and the whole agent pipeline runs
inside one `try/except`.  The external orchestration call is modelled by the
oracle `invoke` taking the api key and the task string; on success the
output record is overwritten with the segmented transcript, on any
exception the two generic error messages are shown and the output record is
left untouched. -/
def submit (apiKey : String) (f : IntakeForm) (prior : SessionOutput)
    (invoke : String → String → Except String (List Turn)) : SubmitResult :=
  if apiKey = "" then
    { output := prior
    , errors := ["Please enter your OpenAI API key."]
    , success := false, spinner := false, invoked := false }
  else
    match invoke apiKey (task f) with
    | Except.ok conversation =>
      { output := segmentResponse conversation
      , errors := []
      , success := true, spinner := true, invoked := true }
    | Except.error e =>
      { output := prior
      , errors := ["An error occurred: " ++ e, "Please check your API key and try again."]
      , success := false, spinner := true, invoked := true }

/-- The character lists of the assistant-tagged turns' contents, in order:
the data that lines 174-177 actually concatenate. -/
def assistantTexts (conversation : List Turn) : List (List Char) :=
  (conversation.filter (fun m => m.role == some "assistant")).map
    (fun m => (m.content.getD "").data)

/-- Concatenation with a trailing two-newline terminator after every
fragment, as the loop at lines 174-177 produces. -/
def joinNN : List (List Char) → List Char
  | [] => []
  | t :: ts => t ++ '\n' :: '\n' :: joinNN ts

/-- Whether a character list contains the two-newline separator. -/
def hasSep : List Char → Bool
  | [] => false
  | [_] => false
  | a :: b :: rest => (a == '\n' && b == '\n') || hasSep (b :: rest)

theorem strData_append (s t : String) : (s ++ t).data = s.data ++ t.data := rfl

theorem fullResponse_data_aux (conversation : List Turn) :
    ∀ acc : String,
      (conversation.foldl
        (fun acc m =>
          if m.role == some "assistant" then acc ++ (m.content.getD "" ++ "\n\n") else acc)
        acc).data = acc.data ++ joinNN (assistantTexts conversation) := by
  induction conversation with
  | nil => intro acc; simp [assistantTexts, joinNN]
  | cons m rest ih =>
    intro acc
    simp only [List.foldl_cons]
    by_cases h : m.role == some "assistant"
    · rw [if_pos h, ih]
      simp [assistantTexts, List.filter_cons, h, joinNN, strData_append]
    · rw [if_neg h, ih]
      simp [assistantTexts, List.filter_cons, h]

/-- The concatenated response is exactly the assistant texts joined with
trailing two-newline terminators. -/
theorem fullResponse_data (conversation : List Turn) :
    (fullResponse conversation).data = joinNN (assistantTexts conversation) := by
  rw [fullResponse, fullResponse_data_aux]; rfl

theorem splitNN_nil : splitNN [] = [[]] := rfl

theorem splitNN_single (c : Char) : splitNN [c] = [[c]] := rfl

theorem splitNN_cons₂ (a b : Char) (rest : List Char) :
    splitNN (a :: b :: rest) =
      if a = '\n' ∧ b = '\n' then [] :: splitNN rest
      else consHead a (splitNN (b :: rest)) := by
  rw [splitNN]

theorem consHead_ne_nil (c : Char) (l : List (List Char)) : consHead c l ≠ [] := by
  cases l <;> simp [consHead]

/-- Splitting never yields an empty fragment list. -/
theorem splitNN_ne_nil (l : List Char) : splitNN l ≠ [] := by
  match l with
  | [] => simp [splitNN_nil]
  | [c] => simp [splitNN_single]
  | a :: b :: rest =>
    rw [splitNN_cons₂]
    split_ifs
    · simp
    · exact consHead_ne_nil a _

/-- Splitting a string of the form `t ++ "\n\n" ++ rest`, where `t` neither
contains the separator nor ends in a newline, peels off `t` as the first
fragment. -/
theorem splitNN_append_sep (t : List Char) (rest : List Char)
    (h1 : hasSep t = false) (h2 : t.getLast? ≠ some '\n') :
    splitNN (t ++ '\n' :: '\n' :: rest) = t :: splitNN rest := by
  induction t with
  | nil => rw [List.nil_append, splitNN_cons₂, if_pos ⟨rfl, rfl⟩]
  | cons c t' ih =>
    cases t' with
    | nil =>
      have hc : c ≠ '\n' := by simpa using h2
      rw [List.cons_append, List.nil_append, splitNN_cons₂,
        if_neg (fun hand => hc hand.1), splitNN_cons₂, if_pos ⟨rfl, rfl⟩]
      simp [consHead]
    | cons d t'' =>
      have hcd : ¬(c = '\n' ∧ d = '\n') := by
        rintro ⟨hc, hd⟩
        rw [hc, hd] at h1
        simp [hasSep] at h1
      have h1' : hasSep (d :: t'') = false := by
        revert h1
        cases t'' <;> simp [hasSep]
      have h2' : (d :: t'').getLast? ≠ some '\n' := by
        rwa [List.getLast?_cons_cons] at h2
      rw [List.cons_append, List.cons_append, splitNN_cons₂, if_neg hcd,
        ← List.cons_append, ih h1' h2']
      rfl

/-- Splitting the join of separator-free, newline-terminator-free fragments
recovers the fragments, plus one trailing empty fragment coming from the
final terminator. -/
theorem splitNN_joinNN (ts : List (List Char))
    (h : ∀ t ∈ ts, hasSep t = false ∧ t.getLast? ≠ some '\n') :
    splitNN (joinNN ts) = ts ++ [[]] := by
  induction ts with
  | nil => simp [joinNN, splitNN_nil]
  | cons t ts ih =>
    rw [joinNN, splitNN_append_sep t (joinNN ts) (h t (by simp)).1 (h t (by simp)).2,
      ih (fun u hu => h u (by simp [hu]))]
    rfl

/-- Under the same side conditions, the sections list is the assistant texts
followed by one empty string. -/
theorem sections_eq (conversation : List Turn)
    (h : ∀ t ∈ assistantTexts conversation, hasSep t = false ∧ t.getLast? ≠ some '\n') :
    sections conversation =
      (assistantTexts conversation).map (fun cs => String.mk cs) ++ [""] := by
  rw [sections, fullResponse_data, splitNN_joinNN _ h]
  simp

theorem sanity_split_empty : splitNN [] = [[]] := rfl

theorem sanity_split_trailing :
    splitNN ("A\n\n".data) = ["A".data, []] := by decide

theorem sanity_split_overlap :
    splitNN ("A\n\n\n".data) = ["A".data, "\n".data] := by decide

theorem sanity_segment_three :
    segmentResponse [⟨some "assistant", some "A"⟩, ⟨some "assistant", some "B"⟩,
      ⟨some "assistant", some "C"⟩] =
      { assessment := "A", action := "B", followup := "C" } := by decide

theorem strAppend_assoc (a b c : String) : a ++ b ++ c = a ++ (b ++ c) :=
  String.ext (by simp [strData_append])

/-- Claim C10: splitting the concatenated assistant text always yields at
least one fragment, so the assessment bucket equals the first fragment no
matter which default the indexing fallback would supply: the branch storing
the whole concatenation is unreachable. -/
theorem C10_assessment_fallback_unreachable (conversation : List Turn) :
    sections conversation ≠ [] ∧
    ∀ d : String,
      (sections conversation).getD 0 d = (segmentResponse conversation).assessment := by
  have hne : sections conversation ≠ [] := by
    rw [sections]
    simpa using splitNN_ne_nil (fullResponse conversation).data
  refine ⟨hne, fun d => ?_⟩
  rw [segmentResponse]
  cases h : sections conversation with
  | nil => exact absurd h hne
  | cons x xs => simp [h]

/-- Claim C7: a conversation with no assistant-tagged turn yields three
empty buckets. -/
theorem C7_no_assistant_turns (conversation : List Turn)
    (h : conversation.filter (fun m => m.role == some "assistant") = []) :
    segmentResponse conversation = { assessment := "", action := "", followup := "" } := by
  have hat : assistantTexts conversation = [] := by
    rw [assistantTexts, h]; rfl
  have hsec : sections conversation = [""] := by
    rw [sections_eq conversation (by rw [hat]; simp), hat]; rfl
  rw [segmentResponse, hsec]
  rfl

theorem C7_no_assistant_turns_witness :
    segmentResponse [⟨some "user", some "hello"⟩, ⟨none, some "stray"⟩] =
      { assessment := "", action := "", followup := "" } :=
  C7_no_assistant_turns [⟨some "user", some "hello"⟩, ⟨none, some "stray"⟩] (by decide)

/-- Claim C1 as stated is false: a single assistant-tagged turn (fewer than
3) whose text contains a blank line leaves the action bucket non-empty, so
the behaviour is not independent of the text payloads. -/
theorem C1_counterexample :
    (assistantTexts [Turn.mk (some "assistant") (some "X\n\nY")]).length < 3 ∧
    (segmentResponse [Turn.mk (some "assistant") (some "X\n\nY")]).action = "Y" ∧
    "Y" ≠ "" := by decide

/-- Claim C1 (amended): with fewer than 3 assistant-tagged turns, and
provided no assistant turn's text contains the two-newline separator or
ends in a newline, every bucket beyond the populated ones is the empty
string (and the segmenter is a total function, so it never raises). -/
theorem C1_missing_buckets_empty (conversation : List Turn)
    (hlen : (assistantTexts conversation).length < 3)
    (htext : ∀ t ∈ assistantTexts conversation,
      hasSep t = false ∧ t.getLast? ≠ some '\n') :
    ((assistantTexts conversation).length = 0 →
      (segmentResponse conversation).assessment = "") ∧
    ((assistantTexts conversation).length ≤ 1 →
      (segmentResponse conversation).action = "") ∧
    ((assistantTexts conversation).length ≤ 2 →
      (segmentResponse conversation).followup = "") := by
  have hsec := sections_eq conversation htext
  rcases hts : assistantTexts conversation with _ | ⟨a, _ | ⟨b, _ | ⟨c, ts'⟩⟩⟩
  · rw [hts] at hsec
    rw [segmentResponse, hsec]
    refine ⟨fun _ => ?_, fun _ => ?_, fun _ => ?_⟩ <;> simp
  · rw [hts] at hsec
    rw [segmentResponse, hsec]
    refine ⟨fun h0 => ?_, fun _ => ?_, fun _ => ?_⟩
    · simp at h0
    · simp
    · simp
  · rw [hts] at hsec
    rw [segmentResponse, hsec]
    refine ⟨fun h0 => ?_, fun h1 => ?_, fun _ => ?_⟩
    · simp at h0
    · simp at h1
    · simp
  · rw [hts] at hlen
    simp at hlen
    omega

theorem C1_missing_buckets_empty_witness :
    (segmentResponse [Turn.mk (some "assistant") (some "A")]).action = "" :=
  (C1_missing_buckets_empty [Turn.mk (some "assistant") (some "A")]
    (by decide) (by decide)).2.1 (by decide)

/-- Claim C3: if the orchestration invocation raises, the session output
record is exactly what it was before the submission; the whole record is
written in one step only on success, so no bucket is partially updated. -/
theorem C3_output_preserved_on_error (apiKey : String) (f : IntakeForm)
    (prior : SessionOutput) (invoke : String → String → Except String (List Turn))
    (e : String) (h : invoke apiKey (task f) = Except.error e) :
    (submit apiKey f prior invoke).output = prior := by
  rw [submit]
  split_ifs
  · rfl
  · rw [h]

theorem C3_output_preserved_on_error_witness :
    (submit "sk-test"
      { mental_state := "m", sleep_pattern := "7", stress_level := 5,
        support_system := [], recent_changes := "", current_symptoms := [] }
      { assessment := "a0", action := "b0", followup := "c0" }
      (fun _ _ => Except.error "boom")).output =
      { assessment := "a0", action := "b0", followup := "c0" } :=
  C3_output_preserved_on_error "sk-test"
    { mental_state := "m", sleep_pattern := "7", stress_level := 5,
      support_system := [], recent_changes := "", current_symptoms := [] }
    { assessment := "a0", action := "b0", followup := "c0" }
    (fun _ _ => Except.error "boom") "boom" rfl

/-- Claim C5: with an empty credential the handler shows only the
credential-missing message, shows no spinner, does not invoke the pipeline
(the result does not even depend on the invocation oracle), and leaves the
output record unchanged. -/
theorem C5_empty_credential (f : IntakeForm) (prior : SessionOutput)
    (invoke invoke' : String → String → Except String (List Turn)) :
    submit "" f prior invoke = submit "" f prior invoke' ∧
    (submit "" f prior invoke).invoked = false ∧
    (submit "" f prior invoke).spinner = false ∧
    (submit "" f prior invoke).errors = ["Please enter your OpenAI API key."] ∧
    (submit "" f prior invoke).output = prior :=
  ⟨rfl, rfl, rfl, rfl, rfl⟩

/-- Claim C6: the three buckets depend only on the subsequence of
assistant-tagged turns; turns carrying any other role tag contribute
nothing. -/
theorem C6_depends_only_on_assistant (c1 c2 : List Turn)
    (h : c1.filter (fun m => m.role == some "assistant") =
      c2.filter (fun m => m.role == some "assistant")) :
    segmentResponse c1 = segmentResponse c2 := by
  have hfr : fullResponse c1 = fullResponse c2 := by
    apply String.ext
    rw [fullResponse_data, fullResponse_data, assistantTexts, assistantTexts, h]
  simp only [segmentResponse, sections, hfr]

theorem C6_depends_only_on_assistant_witness :
    segmentResponse [⟨some "user", some "the task"⟩, ⟨some "assistant", some "A"⟩,
        ⟨some "assessment_agent", some "ignored"⟩] =
      segmentResponse [⟨some "assistant", some "A"⟩, ⟨some "followup_agent", some "Z"⟩] :=
  C6_depends_only_on_assistant
    [⟨some "user", some "the task"⟩, ⟨some "assistant", some "A"⟩,
      ⟨some "assessment_agent", some "ignored"⟩]
    [⟨some "assistant", some "A"⟩, ⟨some "followup_agent", some "Z"⟩] (by decide)

/-- Claim C8: the prompt formatter is a pure function of the six form
fields: equal fields give a character-for-character identical task string. -/
theorem C8_formatter_deterministic (f g : IntakeForm)
    (h1 : f.mental_state = g.mental_state) (h2 : f.sleep_pattern = g.sleep_pattern)
    (h3 : f.stress_level = g.stress_level) (h4 : f.support_system = g.support_system)
    (h5 : f.recent_changes = g.recent_changes)
    (h6 : f.current_symptoms = g.current_symptoms) :
    task f = task g := by
  cases f
  cases g
  cases h1; cases h2; cases h3; cases h4; cases h5; cases h6
  rfl

theorem C8_formatter_deterministic_witness :
    task
      { mental_state := "anxious", sleep_pattern := "6", stress_level := 8,
        support_system := ["Friends"], recent_changes := "moved",
        current_symptoms := ["Anxiety"] } =
    task
      { mental_state := "anxious", sleep_pattern := "6", stress_level := 8,
        support_system := ["Friends"], recent_changes := "moved",
        current_symptoms := ["Anxiety"] } :=
  C8_formatter_deterministic _ _ rfl rfl rfl rfl rfl rfl

/-- Claim C9: both free-text fields appear verbatim as contiguous
substrings of the task string, with no escaping, removal or truncation. -/
theorem C9_free_text_verbatim (f : IntakeForm) :
    (∃ pre post, task f = pre ++ f.mental_state ++ post) ∧
    (∃ pre post, task f = pre ++ f.recent_changes ++ post) := by
  constructor
  · refine ⟨taskPart1,
      taskPart2 ++ f.sleep_pattern ++ taskPart3 ++ toString f.stress_level ++
        taskPart4a ++ taskPart4b ++ renderSelection f.support_system ++ taskPart5 ++
        f.recent_changes ++ taskPart6a ++ taskPart6b ++
        renderSelection f.current_symptoms ++ taskPart7, ?_⟩
    rw [task]
    simp only [strAppend_assoc]
  · refine ⟨taskPart1 ++ f.mental_state ++ taskPart2 ++ f.sleep_pattern ++ taskPart3 ++
      toString f.stress_level ++ taskPart4a ++ taskPart4b ++
      renderSelection f.support_system ++ taskPart5,
      taskPart6a ++ taskPart6b ++ renderSelection f.current_symptoms ++ taskPart7, ?_⟩
    rw [task]
    simp only [strAppend_assoc]

theorem renderSelection_nil : renderSelection [] = "None reported" := rfl

theorem renderSelection_ne_nil (xs : List String) (h : xs ≠ []) :
    renderSelection xs = String.intercalate ", " xs := by
  rw [renderSelection, if_neg]
  simpa using h

theorem taskPart5_split : taskPart5 = "\n" ++ "                Recent Changes: " := by decide

theorem taskPart7_split :
    taskPart7 = "\n" ++ "                \n                Please provide a structured response with three sections:\n                1. Assessment: Analyze the emotional state and psychological needs\n                2. Action Plan: Provide immediate coping strategies and resources\n                3. Follow-up Strategy: Design long-term support and prevention plans\n                " := by
  decide

/-- Claim C4: in the task string, the support-system field renders exactly
"None reported" (up to the following line break) when the selection is
empty, and the labels joined by ", " in selection order otherwise; the same
holds for the symptom selection. -/
theorem C4_selection_rendering (f : IntakeForm) :
    (f.support_system = [] →
      ∃ pre post,
        task f = pre ++ "Support System: " ++ "None reported" ++ "\n" ++ post) ∧
    (f.support_system ≠ [] →
      ∃ pre post,
        task f = pre ++ "Support System: " ++
          String.intercalate ", " f.support_system ++ "\n" ++ post) ∧
    (f.current_symptoms = [] →
      ∃ pre post,
        task f = pre ++ "Current Symptoms: " ++ "None reported" ++ "\n" ++ post) ∧
    (f.current_symptoms ≠ [] →
      ∃ pre post,
        task f = pre ++ "Current Symptoms: " ++
          String.intercalate ", " f.current_symptoms ++ "\n" ++ post) := by
  refine ⟨fun h => ?_, fun h => ?_, fun h => ?_, fun h => ?_⟩
  · refine ⟨taskPart1 ++ f.mental_state ++ taskPart2 ++ f.sleep_pattern ++ taskPart3 ++
      toString f.stress_level ++ taskPart4a,
      "                Recent Changes: " ++ f.recent_changes ++ taskPart6a ++
        taskPart6b ++ renderSelection f.current_symptoms ++ taskPart7, ?_⟩
    rw [task, h, renderSelection_nil, taskPart5_split]
    simp only [taskPart4b, strAppend_assoc]
  · refine ⟨taskPart1 ++ f.mental_state ++ taskPart2 ++ f.sleep_pattern ++ taskPart3 ++
      toString f.stress_level ++ taskPart4a,
      "                Recent Changes: " ++ f.recent_changes ++ taskPart6a ++
        taskPart6b ++ renderSelection f.current_symptoms ++ taskPart7, ?_⟩
    rw [task, renderSelection_ne_nil f.support_system h, taskPart5_split]
    simp only [taskPart4b, strAppend_assoc]
  · refine ⟨taskPart1 ++ f.mental_state ++ taskPart2 ++ f.sleep_pattern ++ taskPart3 ++
      toString f.stress_level ++ taskPart4a ++ taskPart4b ++
      renderSelection f.support_system ++ taskPart5 ++ f.recent_changes ++ taskPart6a,
      "                \n                Please provide a structured response with three sections:\n                1. Assessment: Analyze the emotional state and psychological needs\n                2. Action Plan: Provide immediate coping strategies and resources\n                3. Follow-up Strategy: Design long-term support and prevention plans\n                ", ?_⟩
    rw [task, h, renderSelection_nil, taskPart7_split]
    simp only [taskPart6b, strAppend_assoc]
  · refine ⟨taskPart1 ++ f.mental_state ++ taskPart2 ++ f.sleep_pattern ++ taskPart3 ++
      toString f.stress_level ++ taskPart4a ++ taskPart4b ++
      renderSelection f.support_system ++ taskPart5 ++ f.recent_changes ++ taskPart6a,
      "                \n                Please provide a structured response with three sections:\n                1. Assessment: Analyze the emotional state and psychological needs\n                2. Action Plan: Provide immediate coping strategies and resources\n                3. Follow-up Strategy: Design long-term support and prevention plans\n                ", ?_⟩
    rw [task, renderSelection_ne_nil f.current_symptoms h, taskPart7_split]
    simp only [taskPart6b, strAppend_assoc]

theorem C4_selection_rendering_witness :
    ∃ pre post,
      task
        { mental_state := "", sleep_pattern := "7", stress_level := 5,
          support_system := [], recent_changes := "", current_symptoms := [] } =
        pre ++ "Support System: " ++ "None reported" ++ "\n" ++ post :=
  (C4_selection_rendering
    { mental_state := "", sleep_pattern := "7", stress_level := 5,
      support_system := [], recent_changes := "", current_symptoms := [] }).1 rfl

/-- Claim C2 as stated is false: the loop appends the two-newline separator
after every assistant turn, so for turns A, B, C the intermediate
concatenation carries a trailing separator and is not "A\n\nB\n\nC". -/
theorem C2_counterexample :
    fullResponse [⟨some "assistant", some "A"⟩, ⟨some "assistant", some "B"⟩,
        ⟨some "assistant", some "C"⟩] = "A\n\nB\n\nC\n\n" ∧
    ("A\n\nB\n\nC\n\n" : String) ≠ "A\n\nB\n\nC" := by decide

/-- Claim C2 (amended): for assistant turns A, B, C the intermediate
concatenation is "A\n\nB\n\nC\n\n" (a separator after each turn), and the
resulting buckets are assessment = "A", action = "B", followup = "C". -/
theorem C2_round_trip :
    fullResponse [⟨some "assistant", some "A"⟩, ⟨some "assistant", some "B"⟩,
        ⟨some "assistant", some "C"⟩] = "A\n\nB\n\nC\n\n" ∧
    segmentResponse [⟨some "assistant", some "A"⟩, ⟨some "assistant", some "B"⟩,
        ⟨some "assistant", some "C"⟩] =
      { assessment := "A", action := "B", followup := "C" } := by decide
